import Mathlib

/-!
Shallow embedding of the grafbase rudderstack analytics SDK core:
the event model (src/message.rs), the error taxonomy (src/errors.rs),
the two normalization pipelines (src/utils.rs parse functions and the
From conversion in src/message.rs), and the client send path
(src/client.rs).

Wall-clock reads are modelled by passing the clock reading as an
explicit argument. Opaque JSON payloads (serde Value / IValue) are only
ever cloned and compared by the pipeline, so they are modelled by an
abstract carrier with decidable equality (strings).
-/

namespace Rudder

/-- Instants in time stand in for chrono DateTime values; the pipeline
only copies them and defaults missing ones, so an abstract carrier with
decidable equality suffices. -/
abbrev Time := Nat

/-- Opaque JSON payloads (serde Value and ijson IValue): only cloned and
compared by the pipeline. -/
abbrev Value := String

/-- Errors this crate may produce (src/errors.rs, AnalyticsError). -/
inductive AnalyticsError where
  | messageTooLarge
  | invalidRequest
deriving DecidableEq, Repr

/-- Constant channel marker (src/message.rs and src/utils.rs, CHANNEL). -/
def CHANNEL : String := "server"

/-- An identify event (src/message.rs, struct Identify). -/
structure Identify where
  user_id : Option String
  anonymous_id : Option String
  traits : Option Value
  original_timestamp : Option Time
  context : Option Value
  integrations : Option Value
deriving DecidableEq, Repr

/-- A track event (src/message.rs, struct Track). -/
structure Track where
  user_id : Option String
  anonymous_id : Option String
  event : String
  properties : Option Value
  original_timestamp : Option Time
  context : Option Value
  integrations : Option Value
deriving DecidableEq, Repr

/-- A page event (src/message.rs, struct Page). -/
structure Page where
  user_id : Option String
  anonymous_id : Option String
  name : String
  properties : Option Value
  original_timestamp : Option Time
  context : Option Value
  integrations : Option Value
deriving DecidableEq, Repr

/-- A screen event (src/message.rs, struct Screen). -/
structure Screen where
  user_id : Option String
  anonymous_id : Option String
  name : String
  properties : Option Value
  original_timestamp : Option Time
  context : Option Value
  integrations : Option Value
deriving DecidableEq, Repr

/-- A group event (src/message.rs, struct Group). -/
structure Group where
  user_id : Option String
  anonymous_id : Option String
  group_id : String
  traits : Option Value
  original_timestamp : Option Time
  context : Option Value
  integrations : Option Value
deriving DecidableEq, Repr

/-- An alias event (src/message.rs, struct Alias); user_id and
previous_id are mandatory. -/
structure Alias where
  user_id : String
  previous_id : String
  traits : Option Value
  original_timestamp : Option Time
  context : Option Value
  integrations : Option Value
deriving DecidableEq, Repr

/-- Messages that may be placed inside a batch (src/message.rs,
enum BatchMessage): the union minus Batch itself. -/
inductive BatchMessage where
  | identify : Identify → BatchMessage
  | track : Track → BatchMessage
  | page : Page → BatchMessage
  | screen : Screen → BatchMessage
  | group : Group → BatchMessage
  | alias : Alias → BatchMessage
deriving DecidableEq, Repr

/-- A batch of events (src/message.rs, struct Batch). -/
structure Batch where
  messages : List BatchMessage
  context : Option Value
  integrations : Option Value
  original_timestamp : Option Time
deriving DecidableEq, Repr

/-- The tagged union of all event kinds (src/message.rs, enum
MessageKind; src/client.rs matches the same variant set under the name
Message). -/
inductive MessageKind where
  | identify : Identify → MessageKind
  | track : Track → MessageKind
  | page : Page → MessageKind
  | screen : Screen → MessageKind
  | group : Group → MessageKind
  | alias : Alias → MessageKind
  | batch : Batch → MessageKind
deriving DecidableEq, Repr

/-! Message trait (src/message.rs, trait Message): identity accessors per
impl, the default validate body, and the per-impl overrides. -/

def Identify.get_user_id (m : Identify) : Option String := m.user_id
def Identify.get_anonymous_id (m : Identify) : Option String := m.anonymous_id
def Identify.get_original_timestamp (m : Identify) : Option Time := m.original_timestamp

def Track.get_user_id (m : Track) : Option String := m.user_id
def Track.get_anonymous_id (m : Track) : Option String := m.anonymous_id
def Track.get_original_timestamp (m : Track) : Option Time := m.original_timestamp

def Page.get_user_id (m : Page) : Option String := m.user_id
def Page.get_anonymous_id (m : Page) : Option String := m.anonymous_id
def Page.get_original_timestamp (m : Page) : Option Time := m.original_timestamp

def Screen.get_user_id (m : Screen) : Option String := m.user_id
def Screen.get_anonymous_id (m : Screen) : Option String := m.anonymous_id
def Screen.get_original_timestamp (m : Screen) : Option Time := m.original_timestamp

/-! The Group, Alias and Batch impls return None from both identity
accessors (src/message.rs lines 102-148). -/

def Group.get_user_id (_ : Group) : Option String := none
def Group.get_anonymous_id (_ : Group) : Option String := none
def Group.get_original_timestamp (m : Group) : Option Time := m.original_timestamp

def Alias.get_user_id (_ : Alias) : Option String := none
def Alias.get_anonymous_id (_ : Alias) : Option String := none
def Alias.get_original_timestamp (m : Alias) : Option Time := m.original_timestamp

def Batch.get_user_id (_ : Batch) : Option String := none
def Batch.get_anonymous_id (_ : Batch) : Option String := none
def Batch.get_original_timestamp (m : Batch) : Option Time := m.original_timestamp

/-- Default body of Message::validate (src/message.rs lines 37-43),
applied to the values of the two identity accessors. -/
def validateDefault (user_id anonymous_id : Option String) :
    Except AnalyticsError Unit :=
  if user_id.isSome || anonymous_id.isSome then .ok ()
  else .error .invalidRequest

def Identify.validate (m : Identify) : Except AnalyticsError Unit :=
  validateDefault m.get_user_id m.get_anonymous_id

def Track.validate (m : Track) : Except AnalyticsError Unit :=
  validateDefault m.get_user_id m.get_anonymous_id

def Page.validate (m : Page) : Except AnalyticsError Unit :=
  validateDefault m.get_user_id m.get_anonymous_id

def Screen.validate (m : Screen) : Except AnalyticsError Unit :=
  validateDefault m.get_user_id m.get_anonymous_id

/-- Group overrides validate to always succeed (src/message.rs lines
113-115). -/
def Group.validate (_ : Group) : Except AnalyticsError Unit := .ok ()

/-- Alias overrides validate to always succeed (src/message.rs lines
129-131). -/
def Alias.validate (_ : Alias) : Except AnalyticsError Unit := .ok ()

/-- Batch overrides validate to always succeed (src/message.rs lines
145-147). -/
def Batch.validate (_ : Batch) : Except AnalyticsError Unit := .ok ()

/-- Dispatching validate over the union (src/message.rs,
MessageKind::validate). -/
def MessageKind.validate : MessageKind → Except AnalyticsError Unit
  | .identify m => m.validate
  | .track m => m.validate
  | .page m => m.validate
  | .screen m => m.validate
  | .group m => m.validate
  | .alias m => m.validate
  | .batch m => m.validate

/-- Default body of Message::get_timings (src/message.rs lines 28-32):
sent_at is the wall clock now, original_timestamp defaults to sent_at.
The clock reading is passed explicitly. -/
def getTimings (now : Time) (original_timestamp : Option Time) :
    Time × Time :=
  (now, original_timestamp.getD now)

/-!
Canonical outbound model. The repository holds two canonical target
families with identical field sets: the one in src/rudder_message.rs
stores both timestamps as mandatory values (the target of the From
conversion in src/message.rs), while the family targeted by
src/utils.rs stores both timestamps as optional values (every
construction site there writes sent_at as Some). The family is
therefore embedded once, parametrized by the timestamp carrier T, and
instantiated at Time and at Option Time. The batch wrapper and
batch-child declarations are absent from src/rudder_message.rs; their
field sets are taken verbatim from their construction sites in
src/message.rs and src/utils.rs (Rust struct literals name every
field), matching the spec's CanonicalEvent description.
-/

/-- Canonical identify event (src/rudder_message.rs, struct Identify). -/
structure Ridentify (T : Type) where
  user_id : Option String
  anonymous_id : Option String
  traits : Option Value
  original_timestamp : T
  sent_at : T
  context : Option Value
  integrations : Option Value
  type : String
  channel : String
deriving DecidableEq, Repr

/-- Canonical track event (src/rudder_message.rs, struct Track). -/
structure Rtrack (T : Type) where
  user_id : Option String
  anonymous_id : Option String
  event : String
  properties : Option Value
  original_timestamp : T
  sent_at : T
  context : Option Value
  integrations : Option Value
  type : String
  channel : String
deriving DecidableEq, Repr

/-- Canonical page event (src/rudder_message.rs, struct Page). -/
structure Rpage (T : Type) where
  user_id : Option String
  anonymous_id : Option String
  name : String
  properties : Option Value
  original_timestamp : T
  sent_at : T
  context : Option Value
  integrations : Option Value
  type : String
  channel : String
deriving DecidableEq, Repr

/-- Canonical screen event (src/rudder_message.rs, struct Screen). -/
structure Rscreen (T : Type) where
  user_id : Option String
  anonymous_id : Option String
  name : String
  properties : Option Value
  original_timestamp : T
  sent_at : T
  context : Option Value
  integrations : Option Value
  type : String
  channel : String
deriving DecidableEq, Repr

/-- Canonical group event (src/rudder_message.rs, struct Group). -/
structure Rgroup (T : Type) where
  user_id : Option String
  anonymous_id : Option String
  group_id : String
  traits : Option Value
  original_timestamp : T
  sent_at : T
  context : Option Value
  integrations : Option Value
  type : String
  channel : String
deriving DecidableEq, Repr

/-- Canonical alias event (src/rudder_message.rs, struct Alias). -/
structure Ralias (T : Type) where
  user_id : String
  previous_id : String
  traits : Option Value
  original_timestamp : T
  sent_at : T
  context : Option Value
  integrations : Option Value
  type : String
  channel : String
deriving DecidableEq, Repr

/-- Canonical batch child (ruddermessage BatchMessage): the canonical
union minus the batch wrapper, as used at the construction sites in
src/message.rs lines 277-347 and src/utils.rs lines 163-234. -/
inductive RbatchMessage (T : Type) where
  | identify : Ridentify T → RbatchMessage T
  | track : Rtrack T → RbatchMessage T
  | page : Rpage T → RbatchMessage T
  | screen : Rscreen T → RbatchMessage T
  | group : Rgroup T → RbatchMessage T
  | alias : Ralias T → RbatchMessage T
deriving DecidableEq, Repr

/-- Canonical batch wrapper (ruddermessage Batch): exactly the fields
named at its construction sites (src/message.rs lines 350-357,
src/utils.rs lines 237-244) - note there is no channel field. -/
structure Rbatch (T : Type) where
  batch : List (RbatchMessage T)
  integrations : Option Value
  context : Option Value
  type : String
  original_timestamp : T
  sent_at : T
deriving DecidableEq, Repr

/-- Canonical outbound union (ruddermessage RudderMessage /
Ruddermessage). -/
inductive Rmessage (T : Type) where
  | identify : Ridentify T → Rmessage T
  | track : Rtrack T → Rmessage T
  | page : Rpage T → Rmessage T
  | screen : Rscreen T → Rmessage T
  | group : Rgroup T → Rmessage T
  | alias : Ralias T → Rmessage T
  | batch : Rbatch T → Rmessage T
deriving DecidableEq, Repr

/-- The canonical family targeted by src/utils.rs (optional
timestamps). -/
abbrev Ruddermessage := Rmessage (Option Time)

/-- The canonical family targeted by src/message.rs (mandatory
timestamps, per src/rudder_message.rs). -/
abbrev RudderMessage := Rmessage Time

/-! Normalizer one: the parse functions of src/utils.rs. The wall clock
read by Utc::now() is the explicit argument now. -/

/-- Modify identify payload to rudder format (src/utils.rs,
parse_identify). -/
def parse_identify (now : Time) (message : Identify) : Ruddermessage :=
  let sent_at := now
  let original_timestamp :=
    if message.original_timestamp.isNone then some sent_at
    else message.original_timestamp
  .identify {
    user_id := message.user_id
    anonymous_id := message.anonymous_id
    traits := message.traits
    original_timestamp := original_timestamp
    sent_at := some sent_at
    integrations := message.integrations
    context := message.context
    type := "identify"
    channel := CHANNEL }

/-- Modify track payload to rudder format (src/utils.rs, parse_track). -/
def parse_track (now : Time) (message : Track) : Ruddermessage :=
  let sent_at := now
  let original_timestamp :=
    if message.original_timestamp.isNone then some sent_at
    else message.original_timestamp
  .track {
    user_id := message.user_id
    anonymous_id := message.anonymous_id
    event := message.event
    properties := message.properties
    original_timestamp := original_timestamp
    sent_at := some sent_at
    integrations := message.integrations
    context := message.context
    type := "track"
    channel := CHANNEL }

/-- Modify page payload to rudder format (src/utils.rs, parse_page). -/
def parse_page (now : Time) (message : Page) : Ruddermessage :=
  let sent_at := now
  let original_timestamp :=
    if message.original_timestamp.isNone then some sent_at
    else message.original_timestamp
  .page {
    user_id := message.user_id
    anonymous_id := message.anonymous_id
    name := message.name
    properties := message.properties
    original_timestamp := original_timestamp
    sent_at := some sent_at
    integrations := message.integrations
    context := message.context
    type := "page"
    channel := CHANNEL }

/-- Modify screen payload to rudder format (src/utils.rs, parse_screen). -/
def parse_screen (now : Time) (message : Screen) : Ruddermessage :=
  let sent_at := now
  let original_timestamp :=
    if message.original_timestamp.isNone then some sent_at
    else message.original_timestamp
  .screen {
    user_id := message.user_id
    anonymous_id := message.anonymous_id
    name := message.name
    properties := message.properties
    original_timestamp := original_timestamp
    sent_at := some sent_at
    integrations := message.integrations
    context := message.context
    type := "screen"
    channel := CHANNEL }

/-- Modify group payload to rudder format (src/utils.rs, parse_group). -/
def parse_group (now : Time) (message : Group) : Ruddermessage :=
  let sent_at := now
  let original_timestamp :=
    if message.original_timestamp.isNone then some sent_at
    else message.original_timestamp
  .group {
    user_id := message.user_id
    anonymous_id := message.anonymous_id
    group_id := message.group_id
    traits := message.traits
    original_timestamp := original_timestamp
    sent_at := some sent_at
    integrations := message.integrations
    context := message.context
    type := "group"
    channel := CHANNEL }

/-- Modify alias payload to rudder format (src/utils.rs, parse_alias). -/
def parse_alias (now : Time) (message : Alias) : Ruddermessage :=
  let sent_at := now
  let original_timestamp :=
    if message.original_timestamp.isNone then some sent_at
    else message.original_timestamp
  .alias {
    user_id := message.user_id
    previous_id := message.previous_id
    traits := message.traits
    original_timestamp := original_timestamp
    sent_at := some sent_at
    integrations := message.integrations
    context := message.context
    type := "alias"
    channel := CHANNEL }

/-- Modify batch payload to rudder format (src/utils.rs, parse_batch):
one timestamp pair for the whole batch, batch-level context for every
child, each child keeping its own integrations. -/
def parse_batch (now : Time) (batch : Batch) : Ruddermessage :=
  let sent_at := now
  let original_timestamp :=
    if batch.original_timestamp.isNone then some sent_at
    else batch.original_timestamp
  let integrations := batch.integrations
  let context := batch.context
  let children := batch.messages.map fun message =>
    match message with
    | BatchMessage.identify identify_message => RbatchMessage.identify {
        user_id := identify_message.user_id
        anonymous_id := identify_message.anonymous_id
        traits := identify_message.traits
        original_timestamp := original_timestamp
        sent_at := some sent_at
        integrations := identify_message.integrations
        context := context
        type := "identify"
        channel := CHANNEL }
    | BatchMessage.track track_message => RbatchMessage.track {
        user_id := track_message.user_id
        anonymous_id := track_message.anonymous_id
        event := track_message.event
        properties := track_message.properties
        original_timestamp := original_timestamp
        sent_at := some sent_at
        integrations := track_message.integrations
        context := context
        type := "track"
        channel := CHANNEL }
    | BatchMessage.page page_message => RbatchMessage.page {
        user_id := page_message.user_id
        anonymous_id := page_message.anonymous_id
        name := page_message.name
        properties := page_message.properties
        original_timestamp := original_timestamp
        sent_at := some sent_at
        integrations := page_message.integrations
        context := context
        type := "page"
        channel := CHANNEL }
    | BatchMessage.screen screen_message => RbatchMessage.screen {
        user_id := screen_message.user_id
        anonymous_id := screen_message.anonymous_id
        name := screen_message.name
        properties := screen_message.properties
        original_timestamp := original_timestamp
        sent_at := some sent_at
        integrations := screen_message.integrations
        context := context
        type := "screen"
        channel := CHANNEL }
    | BatchMessage.group group_message => RbatchMessage.group {
        user_id := group_message.user_id
        anonymous_id := group_message.anonymous_id
        group_id := group_message.group_id
        traits := group_message.traits
        original_timestamp := original_timestamp
        sent_at := some sent_at
        integrations := group_message.integrations
        context := context
        type := "group"
        channel := CHANNEL }
    | BatchMessage.alias alias_message => RbatchMessage.alias {
        user_id := alias_message.user_id
        previous_id := alias_message.previous_id
        traits := alias_message.traits
        original_timestamp := original_timestamp
        sent_at := some sent_at
        integrations := alias_message.integrations
        context := context
        type := "alias"
        channel := CHANNEL }
  .batch {
    batch := children
    integrations := integrations
    context := context
    type := "batch"
    original_timestamp := original_timestamp
    sent_at := some sent_at }

/-! Normalizer two: the From conversion of src/message.rs lines 165-361
(impl From of a MessageKind reference for RudderMessage). -/

/-- The From conversion (src/message.rs): each arm takes its timestamp
pair from get_timings; the Batch arm computes the pair once, gives
every child the batch-level context and that single timestamp pair,
keeping each child's own integrations. -/
def ruddermessageFrom (now : Time) (message : MessageKind) : RudderMessage :=
  match message with
  | MessageKind.identify identify_message =>
    let (sent_at, original_timestamp) :=
      getTimings now identify_message.get_original_timestamp
    .identify {
      user_id := identify_message.user_id
      anonymous_id := identify_message.anonymous_id
      traits := identify_message.traits
      original_timestamp := original_timestamp
      sent_at := sent_at
      integrations := identify_message.integrations
      context := identify_message.context
      type := "identify"
      channel := CHANNEL }
  | MessageKind.track track_message =>
    let (sent_at, original_timestamp) :=
      getTimings now track_message.get_original_timestamp
    .track {
      user_id := track_message.user_id
      anonymous_id := track_message.anonymous_id
      event := track_message.event
      properties := track_message.properties
      original_timestamp := original_timestamp
      sent_at := sent_at
      integrations := track_message.integrations
      context := track_message.context
      type := "track"
      channel := CHANNEL }
  | MessageKind.page page_message =>
    let (sent_at, original_timestamp) :=
      getTimings now page_message.get_original_timestamp
    .page {
      user_id := page_message.user_id
      anonymous_id := page_message.anonymous_id
      name := page_message.name
      properties := page_message.properties
      original_timestamp := original_timestamp
      sent_at := sent_at
      integrations := page_message.integrations
      context := page_message.context
      type := "page"
      channel := CHANNEL }
  | MessageKind.screen screen_message =>
    let (sent_at, original_timestamp) :=
      getTimings now screen_message.get_original_timestamp
    .screen {
      user_id := screen_message.user_id
      anonymous_id := screen_message.anonymous_id
      name := screen_message.name
      properties := screen_message.properties
      original_timestamp := original_timestamp
      sent_at := sent_at
      integrations := screen_message.integrations
      context := screen_message.context
      type := "screen"
      channel := CHANNEL }
  | MessageKind.group group_message =>
    let (sent_at, original_timestamp) :=
      getTimings now group_message.get_original_timestamp
    .group {
      user_id := group_message.user_id
      anonymous_id := group_message.anonymous_id
      group_id := group_message.group_id
      traits := group_message.traits
      original_timestamp := original_timestamp
      sent_at := sent_at
      integrations := group_message.integrations
      context := group_message.context
      type := "group"
      channel := CHANNEL }
  | MessageKind.alias alias_message =>
    let (sent_at, original_timestamp) :=
      getTimings now alias_message.get_original_timestamp
    .alias {
      user_id := alias_message.user_id
      previous_id := alias_message.previous_id
      traits := alias_message.traits
      original_timestamp := original_timestamp
      sent_at := sent_at
      integrations := alias_message.integrations
      context := alias_message.context
      type := "alias"
      channel := CHANNEL }
  | MessageKind.batch batch_message =>
    let (sent_at, original_timestamp) :=
      getTimings now batch_message.get_original_timestamp
    let integrations := batch_message.integrations
    let context := batch_message.context
    let children := batch_message.messages.map fun m =>
      match m with
      | BatchMessage.identify identify_message => RbatchMessage.identify {
          user_id := identify_message.user_id
          anonymous_id := identify_message.anonymous_id
          traits := identify_message.traits
          original_timestamp := original_timestamp
          sent_at := sent_at
          integrations := identify_message.integrations
          context := context
          type := "identify"
          channel := CHANNEL }
      | BatchMessage.track track_message => RbatchMessage.track {
          user_id := track_message.user_id
          anonymous_id := track_message.anonymous_id
          event := track_message.event
          properties := track_message.properties
          original_timestamp := original_timestamp
          sent_at := sent_at
          integrations := track_message.integrations
          context := context
          type := "track"
          channel := CHANNEL }
      | BatchMessage.page page_message => RbatchMessage.page {
          user_id := page_message.user_id
          anonymous_id := page_message.anonymous_id
          name := page_message.name
          properties := page_message.properties
          original_timestamp := original_timestamp
          sent_at := sent_at
          integrations := page_message.integrations
          context := context
          type := "page"
          channel := CHANNEL }
      | BatchMessage.screen screen_message => RbatchMessage.screen {
          user_id := screen_message.user_id
          anonymous_id := screen_message.anonymous_id
          name := screen_message.name
          properties := screen_message.properties
          original_timestamp := original_timestamp
          sent_at := sent_at
          integrations := screen_message.integrations
          context := context
          type := "screen"
          channel := CHANNEL }
      | BatchMessage.group group_message => RbatchMessage.group {
          user_id := group_message.user_id
          anonymous_id := group_message.anonymous_id
          group_id := group_message.group_id
          traits := group_message.traits
          original_timestamp := original_timestamp
          sent_at := sent_at
          integrations := group_message.integrations
          context := context
          type := "group"
          channel := CHANNEL }
      | BatchMessage.alias alias_message => RbatchMessage.alias {
          user_id := alias_message.user_id
          previous_id := alias_message.previous_id
          traits := alias_message.traits
          original_timestamp := original_timestamp
          sent_at := sent_at
          integrations := alias_message.integrations
          context := context
          type := "alias"
          channel := CHANNEL }
    .batch {
      batch := children
      integrations := integrations
      context := context
      type := "batch"
      original_timestamp := original_timestamp
      sent_at := sent_at }

/-! Client send path (src/client.rs, RudderAnalytics::send). The first
match validates the identity pair per variant and picks the endpoint
path, returning InvalidRequest early; the second match normalizes via
the utils parse functions; the request is then built and queued. -/

/-- First match of send (src/client.rs lines 37-75): endpoint path with
early identity errors. -/
def sendPath : MessageKind → Except AnalyticsError String
  | MessageKind.identify identify_message =>
    if identify_message.user_id.isNone && identify_message.anonymous_id.isNone
    then .error .invalidRequest else .ok "/v1/identify"
  | MessageKind.track track_message =>
    if track_message.user_id.isNone && track_message.anonymous_id.isNone
    then .error .invalidRequest else .ok "/v1/track"
  | MessageKind.page page_message =>
    if page_message.user_id.isNone && page_message.anonymous_id.isNone
    then .error .invalidRequest else .ok "/v1/page"
  | MessageKind.screen screen_message =>
    if screen_message.user_id.isNone && screen_message.anonymous_id.isNone
    then .error .invalidRequest else .ok "/v1/screen"
  | MessageKind.group group_message =>
    if group_message.user_id.isNone && group_message.anonymous_id.isNone
    then .error .invalidRequest else .ok "/v1/group"
  | MessageKind.alias _ => .ok "/v1/alias"
  | MessageKind.batch _ => .ok "/v1/batch"

/-- Second match of send (src/client.rs lines 78-86): dispatch to the
utils parse functions. -/
def parseMessage (now : Time) : MessageKind → Ruddermessage
  | MessageKind.identify identify_message => parse_identify now identify_message
  | MessageKind.track track_message => parse_track now track_message
  | MessageKind.page page_message => parse_page now page_message
  | MessageKind.screen screen_message => parse_screen now screen_message
  | MessageKind.group group_message => parse_group now group_message
  | MessageKind.alias alias_message => parse_alias now alias_message
  | MessageKind.batch batch_message => parse_batch now batch_message

/-- An HTTP POST queued by send: endpoint path and JSON body. -/
structure SentRequest where
  path : String
  body : Ruddermessage
deriving DecidableEq, Repr

/-- The send function (src/client.rs lines 35-102): on validation
failure it returns before any normalization; otherwise it normalizes,
queues exactly one request, and returns success regardless of the
transport outcome. -/
def send (now : Time) (message : MessageKind) :
    Except AnalyticsError SentRequest :=
  match sendPath message with
  | .error e => .error e
  | .ok path => .ok { path := path, body := parseMessage now message }

/-- The requests queued by one call to send: none on the early error
return, exactly one otherwise (the spawned fire-and-forget POST). -/
def sendRequests (now : Time) (message : MessageKind) : List SentRequest :=
  match send now message with
  | .ok r => [r]
  | .error _ => []

/-! Projections over the canonical union, used to state the claims. -/

/-- Timestamp sentAt of a canonical event; every variant, the batch
wrapper included, carries one. -/
def Rmessage.sentAt {T : Type} : Rmessage T → T
  | .identify m => m.sent_at
  | .track m => m.sent_at
  | .page m => m.sent_at
  | .screen m => m.sent_at
  | .group m => m.sent_at
  | .alias m => m.sent_at
  | .batch m => m.sent_at

/-- Timestamp originalTimestamp of a canonical event. -/
def Rmessage.originalTimestamp {T : Type} : Rmessage T → T
  | .identify m => m.original_timestamp
  | .track m => m.original_timestamp
  | .page m => m.original_timestamp
  | .screen m => m.original_timestamp
  | .group m => m.original_timestamp
  | .alias m => m.original_timestamp
  | .batch m => m.original_timestamp

/-- The type discriminator string of a canonical event. -/
def Rmessage.msgType {T : Type} : Rmessage T → String
  | .identify m => m.type
  | .track m => m.type
  | .page m => m.type
  | .screen m => m.type
  | .group m => m.type
  | .alias m => m.type
  | .batch m => m.type

/-- The channel field of a canonical event, when the variant has one:
the batch wrapper struct carries no channel field, so it yields none. -/
def Rmessage.channelOpt {T : Type} : Rmessage T → Option String
  | .identify m => some m.channel
  | .track m => some m.channel
  | .page m => some m.channel
  | .screen m => some m.channel
  | .group m => some m.channel
  | .alias m => some m.channel
  | .batch _ => none

/-- The flattened children of a canonical batch wrapper (empty for the
other variants). -/
def Rmessage.batchChildren {T : Type} : Rmessage T → List (RbatchMessage T)
  | .batch m => m.batch
  | _ => []

/-- Timestamp sentAt of a canonical batch child. -/
def RbatchMessage.sentAt {T : Type} : RbatchMessage T → T
  | .identify m => m.sent_at
  | .track m => m.sent_at
  | .page m => m.sent_at
  | .screen m => m.sent_at
  | .group m => m.sent_at
  | .alias m => m.sent_at

/-- Timestamp originalTimestamp of a canonical batch child. -/
def RbatchMessage.originalTimestamp {T : Type} : RbatchMessage T → T
  | .identify m => m.original_timestamp
  | .track m => m.original_timestamp
  | .page m => m.original_timestamp
  | .screen m => m.original_timestamp
  | .group m => m.original_timestamp
  | .alias m => m.original_timestamp

/-- The context carried by a canonical batch child. -/
def RbatchMessage.context {T : Type} : RbatchMessage T → Option Value
  | .identify m => m.context
  | .track m => m.context
  | .page m => m.context
  | .screen m => m.context
  | .group m => m.context
  | .alias m => m.context

/-- The integrations carried by a canonical batch child. -/
def RbatchMessage.integrations {T : Type} : RbatchMessage T → Option Value
  | .identify m => m.integrations
  | .track m => m.integrations
  | .page m => m.integrations
  | .screen m => m.integrations
  | .group m => m.integrations
  | .alias m => m.integrations

/-- The type discriminator of a canonical batch child. -/
def RbatchMessage.msgType {T : Type} : RbatchMessage T → String
  | .identify m => m.type
  | .track m => m.type
  | .page m => m.type
  | .screen m => m.type
  | .group m => m.type
  | .alias m => m.type

/-- The channel of a canonical batch child (every child variant has
one). -/
def RbatchMessage.channel {T : Type} : RbatchMessage T → String
  | .identify m => m.channel
  | .track m => m.channel
  | .page m => m.channel
  | .screen m => m.channel
  | .group m => m.channel
  | .alias m => m.channel

/-- The integrations field of a source batch child. -/
def BatchMessage.integrations : BatchMessage → Option Value
  | .identify m => m.integrations
  | .track m => m.integrations
  | .page m => m.integrations
  | .screen m => m.integrations
  | .group m => m.integrations
  | .alias m => m.integrations

/-- The context field of a source batch child. -/
def BatchMessage.context : BatchMessage → Option Value
  | .identify m => m.context
  | .track m => m.context
  | .page m => m.context
  | .screen m => m.context
  | .group m => m.context
  | .alias m => m.context

/-- The lowercase kind name of a source batch child, as the spec names
the type discriminator. -/
def BatchMessage.kindName : BatchMessage → String
  | .identify _ => "identify"
  | .track _ => "track"
  | .page _ => "page"
  | .screen _ => "screen"
  | .group _ => "group"
  | .alias _ => "alias"

/-- The original_timestamp field of an event, every variant (the field
each source struct declares). -/
def MessageKind.original_timestamp : MessageKind → Option Time
  | .identify m => m.original_timestamp
  | .track m => m.original_timestamp
  | .page m => m.original_timestamp
  | .screen m => m.original_timestamp
  | .group m => m.original_timestamp
  | .alias m => m.original_timestamp
  | .batch m => m.original_timestamp

/-- The lowercase kind name of an event, as the spec names the type
discriminator. -/
def MessageKind.kindName : MessageKind → String
  | .identify _ => "identify"
  | .track _ => "track"
  | .page _ => "page"
  | .screen _ => "screen"
  | .group _ => "group"
  | .alias _ => "alias"
  | .batch _ => "batch"

/-- The source children of an event: the batch's message list, empty
for the other variants. -/
def MessageKind.children : MessageKind → List BatchMessage
  | .batch b => b.messages
  | _ => []

/-- The spec's identity rule (section 4.2): Identify, Track, Page,
Screen and Group need user_id or anonymous_id; Alias and Batch always
pass. This is the pre-flight check send performs inline. -/
def identityOk : MessageKind → Bool
  | .identify m => m.user_id.isSome || m.anonymous_id.isSome
  | .track m => m.user_id.isSome || m.anonymous_id.isSome
  | .page m => m.user_id.isSome || m.anonymous_id.isSome
  | .screen m => m.user_id.isSome || m.anonymous_id.isSome
  | .group m => m.user_id.isSome || m.anonymous_id.isSome
  | .alias _ => true
  | .batch _ => true

/-! Field-preserving injection from the mandatory-timestamp canonical
family into the optional-timestamp one: wraps each timestamp in some
and leaves every other field unchanged. Used to compare the two
normalizers. -/

def Ridentify.someT (m : Ridentify Time) : Ridentify (Option Time) :=
  { m with original_timestamp := some m.original_timestamp, sent_at := some m.sent_at }

def Rtrack.someT (m : Rtrack Time) : Rtrack (Option Time) :=
  { m with original_timestamp := some m.original_timestamp, sent_at := some m.sent_at }

def Rpage.someT (m : Rpage Time) : Rpage (Option Time) :=
  { m with original_timestamp := some m.original_timestamp, sent_at := some m.sent_at }

def Rscreen.someT (m : Rscreen Time) : Rscreen (Option Time) :=
  { m with original_timestamp := some m.original_timestamp, sent_at := some m.sent_at }

def Rgroup.someT (m : Rgroup Time) : Rgroup (Option Time) :=
  { m with original_timestamp := some m.original_timestamp, sent_at := some m.sent_at }

def Ralias.someT (m : Ralias Time) : Ralias (Option Time) :=
  { m with original_timestamp := some m.original_timestamp, sent_at := some m.sent_at }

def RbatchMessage.someT : RbatchMessage Time → RbatchMessage (Option Time)
  | .identify m => .identify m.someT
  | .track m => .track m.someT
  | .page m => .page m.someT
  | .screen m => .screen m.someT
  | .group m => .group m.someT
  | .alias m => .alias m.someT

def Rmessage.someT : RudderMessage → Ruddermessage
  | .identify m => .identify m.someT
  | .track m => .track m.someT
  | .page m => .page m.someT
  | .screen m => .screen m.someT
  | .group m => .group m.someT
  | .alias m => .alias m.someT
  | .batch m => .batch {
      batch := m.batch.map RbatchMessage.someT
      integrations := m.integrations
      context := m.context
      type := m.type
      original_timestamp := some m.original_timestamp
      sent_at := some m.sent_at }

/-! Helper lemmas shared by the claim theorems. -/

/-- Any error produced by the path match of send is InvalidRequest. -/
lemma sendPath_error_eq (m : MessageKind) (e : AnalyticsError)
    (h : sendPath m = .error e) : e = .invalidRequest := by
  rcases m with m' | m' | m' | m' | m' | m' | m'
  all_goals simp only [sendPath] at h
  all_goals try exact Except.noConfusion h
  all_goals
    split at h
    · injection h with h2
      exact h2.symm
    · exact Except.noConfusion h

/-! Claim theorems. -/

/-- Claim C1, counterexample. The claim states that for every event of
kind Group, validation fails with the identity-missing error whenever
both user_id and anonymous_id are absent. The trait-based validator
(MessageKind::validate, via the Group impl override at src/message.rs
lines 113-115) succeeds on a Group with both identity fields absent,
while the inline check of send rejects the same event: the claim as
stated is false of MessageKind::validate. -/
theorem C1_counterexample :
    (MessageKind.validate (MessageKind.group
      { user_id := none, anonymous_id := none, group_id := "g1",
        traits := none, original_timestamp := none, context := none,
        integrations := none }) = Except.ok ()) ∧
    (MessageKind.validate (MessageKind.group
      { user_id := none, anonymous_id := none, group_id := "g1",
        traits := none, original_timestamp := none, context := none,
        integrations := none }) ≠ Except.error AnalyticsError.invalidRequest) ∧
    (sendPath (MessageKind.group
      { user_id := none, anonymous_id := none, group_id := "g1",
        traits := none, original_timestamp := none, context := none,
        integrations := none }) = Except.error AnalyticsError.invalidRequest) := by
  refine ⟨rfl, ?_, rfl⟩
  intro h
  exact Except.noConfusion h

/-- Claim C1, amended. For Identify, Track, Page and Screen, both the
trait-based validator and the inline check of send fail with
InvalidRequest exactly when both user_id and anonymous_id are absent,
succeeding otherwise; the inline check of send enforces the same rule
for Group; but the trait-based validator always succeeds on Group (its
validate override ignores the identity pair). -/
theorem C1_theorem :
    ∀ (mi : Identify) (mt : Track) (mp : Page) (ms : Screen) (mg : Group),
    (MessageKind.validate (MessageKind.identify mi) =
      if mi.user_id = none ∧ mi.anonymous_id = none
      then Except.error AnalyticsError.invalidRequest else Except.ok ()) ∧
    (MessageKind.validate (MessageKind.track mt) =
      if mt.user_id = none ∧ mt.anonymous_id = none
      then Except.error AnalyticsError.invalidRequest else Except.ok ()) ∧
    (MessageKind.validate (MessageKind.page mp) =
      if mp.user_id = none ∧ mp.anonymous_id = none
      then Except.error AnalyticsError.invalidRequest else Except.ok ()) ∧
    (MessageKind.validate (MessageKind.screen ms) =
      if ms.user_id = none ∧ ms.anonymous_id = none
      then Except.error AnalyticsError.invalidRequest else Except.ok ()) ∧
    (MessageKind.validate (MessageKind.group mg) = Except.ok ()) ∧
    (sendPath (MessageKind.identify mi) =
      if mi.user_id = none ∧ mi.anonymous_id = none
      then Except.error AnalyticsError.invalidRequest else Except.ok "/v1/identify") ∧
    (sendPath (MessageKind.track mt) =
      if mt.user_id = none ∧ mt.anonymous_id = none
      then Except.error AnalyticsError.invalidRequest else Except.ok "/v1/track") ∧
    (sendPath (MessageKind.page mp) =
      if mp.user_id = none ∧ mp.anonymous_id = none
      then Except.error AnalyticsError.invalidRequest else Except.ok "/v1/page") ∧
    (sendPath (MessageKind.screen ms) =
      if ms.user_id = none ∧ ms.anonymous_id = none
      then Except.error AnalyticsError.invalidRequest else Except.ok "/v1/screen") ∧
    (sendPath (MessageKind.group mg) =
      if mg.user_id = none ∧ mg.anonymous_id = none
      then Except.error AnalyticsError.invalidRequest else Except.ok "/v1/group") := by
  intro mi mt mp ms mg
  refine ⟨?_, ?_, ?_, ?_, rfl, ?_, ?_, ?_, ?_, ?_⟩
  · rcases mi with ⟨u, a, _, _, _, _⟩
    cases u <;> cases a <;> simp [MessageKind.validate, Identify.validate,
      validateDefault, Identify.get_user_id, Identify.get_anonymous_id]
  · rcases mt with ⟨u, a, _, _, _, _, _⟩
    cases u <;> cases a <;> simp [MessageKind.validate, Track.validate,
      validateDefault, Track.get_user_id, Track.get_anonymous_id]
  · rcases mp with ⟨u, a, _, _, _, _, _⟩
    cases u <;> cases a <;> simp [MessageKind.validate, Page.validate,
      validateDefault, Page.get_user_id, Page.get_anonymous_id]
  · rcases ms with ⟨u, a, _, _, _, _, _⟩
    cases u <;> cases a <;> simp [MessageKind.validate, Screen.validate,
      validateDefault, Screen.get_user_id, Screen.get_anonymous_id]
  · rcases mi with ⟨u, a, _, _, _, _⟩
    cases u <;> cases a <;> simp [sendPath]
  · rcases mt with ⟨u, a, _, _, _, _, _⟩
    cases u <;> cases a <;> simp [sendPath]
  · rcases mp with ⟨u, a, _, _, _, _, _⟩
    cases u <;> cases a <;> simp [sendPath]
  · rcases ms with ⟨u, a, _, _, _, _, _⟩
    cases u <;> cases a <;> simp [sendPath]
  · rcases mg with ⟨u, a, _, _, _, _, _⟩
    cases u <;> cases a <;> simp [sendPath]

/-- Claim C4: for every event and clock reading, both normalizers set
the canonical sentAt to the clock reading and the canonical
originalTimestamp to the caller-supplied original_timestamp when one is
supplied, and to the sentAt instant otherwise. -/
theorem C4_theorem :
    ∀ (now : Time) (m : MessageKind),
    (ruddermessageFrom now m).sentAt = now ∧
    (ruddermessageFrom now m).originalTimestamp = m.original_timestamp.getD now ∧
    (parseMessage now m).sentAt = some now ∧
    (parseMessage now m).originalTimestamp = some (m.original_timestamp.getD now) := by
  intro now m
  rcases m with ⟨_, _, _, ot, _, _⟩ | ⟨_, _, _, _, ot, _, _⟩ |
    ⟨_, _, _, _, ot, _, _⟩ | ⟨_, _, _, _, ot, _, _⟩ |
    ⟨_, _, _, _, ot, _, _⟩ | ⟨_, _, _, ot, _, _⟩ | ⟨_, _, _, ot⟩ <;>
  cases ot <;> exact ⟨rfl, rfl, rfl, rfl⟩

/-- Claim C6: for every message and clock reading, send succeeds
exactly when the pre-flight identity rule admits the message; the
validation outcome is the only thing the return value depends on (the
model carries no transport outcome at all, matching the code, which
discards the spawned request's result). -/
theorem C6_theorem :
    ∀ (now : Time) (m : MessageKind), (send now m).isOk = identityOk m := by
  intro now m
  rcases m with ⟨u, a, _, _, _, _⟩ | ⟨u, a, _, _, _, _, _⟩ |
    ⟨u, a, _, _, _, _, _⟩ | ⟨u, a, _, _, _, _, _⟩ |
    ⟨u, a, _, _, _, _, _⟩ | ma | mb
  · cases u <;> cases a <;> rfl
  · cases u <;> cases a <;> rfl
  · cases u <;> cases a <;> rfl
  · cases u <;> cases a <;> rfl
  · cases u <;> cases a <;> rfl
  · rfl
  · rfl

/-- Claim C7: every Alias event passes both validators regardless of
its identity fields, and every Batch passes regardless of its
children; send accepts both kinds unconditionally. -/
theorem C7_theorem :
    ∀ (now : Time) (a : Alias) (b : Batch),
    (MessageKind.validate (MessageKind.alias a) = Except.ok ()) ∧
    (sendPath (MessageKind.alias a) = Except.ok "/v1/alias") ∧
    ((send now (MessageKind.alias a)).isOk = true) ∧
    (MessageKind.validate (MessageKind.batch b) = Except.ok ()) ∧
    (sendPath (MessageKind.batch b) = Except.ok "/v1/batch") ∧
    ((send now (MessageKind.batch b)).isOk = true) := by
  intro now a b
  exact ⟨rfl, rfl, rfl, rfl, rfl, rfl⟩

/-- Claim C2, counterexample. The claim states each flattened batch
child carries the batch-level integrations, its own being overridden.
In both normalizers a child keeps its own integrations: flattening a
batch whose integrations differ from its only child's yields a
canonical child carrying the child's value, not the batch's. -/
theorem C2_counterexample :
    ((ruddermessageFrom 0 (MessageKind.batch
      { messages := [BatchMessage.identify
          { user_id := some "u1", anonymous_id := none, traits := none,
            original_timestamp := none, context := some "childCtx",
            integrations := some "childInt" }],
        context := some "batchCtx", integrations := some "batchInt",
        original_timestamp := none })).batchChildren.map RbatchMessage.integrations
      = [some "childInt"]) ∧
    ((parseMessage 0 (MessageKind.batch
      { messages := [BatchMessage.identify
          { user_id := some "u1", anonymous_id := none, traits := none,
            original_timestamp := none, context := some "childCtx",
            integrations := some "childInt" }],
        context := some "batchCtx", integrations := some "batchInt",
        original_timestamp := none })).batchChildren.map RbatchMessage.integrations
      = [some "childInt"]) ∧
    (some "childInt" : Option Value) ≠ some "batchInt" := by
  refine ⟨rfl, rfl, ?_⟩
  intro h
  exact absurd (Option.some.inj h) (by decide)

/-- Claim C2, amended: in both normalizers every flattened canonical
child carries the batch-level context (its own context, if set, is
overridden), but keeps its own integrations; the batch-level
integrations appear only on the wrapper. -/
theorem C2_theorem :
    ∀ (now : Time) (b : Batch) (i : Nat),
    ((ruddermessageFrom now (MessageKind.batch b)).batchChildren[i]?.map
        RbatchMessage.context = b.messages[i]?.map fun _ => b.context) ∧
    ((ruddermessageFrom now (MessageKind.batch b)).batchChildren[i]?.map
        RbatchMessage.integrations = b.messages[i]?.map BatchMessage.integrations) ∧
    ((parseMessage now (MessageKind.batch b)).batchChildren[i]?.map
        RbatchMessage.context = b.messages[i]?.map fun _ => b.context) ∧
    ((parseMessage now (MessageKind.batch b)).batchChildren[i]?.map
        RbatchMessage.integrations = b.messages[i]?.map BatchMessage.integrations) := by
  intro now b i
  rcases b with ⟨msgs, c, ints, ot⟩
  refine ⟨?_, ?_, ?_, ?_⟩ <;>
  · simp only [ruddermessageFrom, parseMessage, parse_batch,
      Rmessage.batchChildren, List.getElem?_map, Option.map_map]
    cases hmi : msgs[i]?
    · rfl
    · rename_i x
      cases x <;> rfl

/-- Claim C3: flattening a batch of N children yields exactly N
canonical children plus the wrapper, all carrying the single timestamp
pair computed once for the batch (sentAt is the clock reading,
originalTimestamp the batch's own value or that sentAt when absent);
each child's own original_timestamp is discarded. Holds of both
normalizers. -/
theorem C3_theorem :
    ∀ (now : Time) (b : Batch) (i : Nat),
    ((ruddermessageFrom now (MessageKind.batch b)).batchChildren.length
      = b.messages.length) ∧
    ((ruddermessageFrom now (MessageKind.batch b)).sentAt = now) ∧
    ((ruddermessageFrom now (MessageKind.batch b)).originalTimestamp
      = b.original_timestamp.getD now) ∧
    ((ruddermessageFrom now (MessageKind.batch b)).batchChildren[i]?.map
        RbatchMessage.sentAt = b.messages[i]?.map fun _ => now) ∧
    ((ruddermessageFrom now (MessageKind.batch b)).batchChildren[i]?.map
        RbatchMessage.originalTimestamp
      = b.messages[i]?.map fun _ => b.original_timestamp.getD now) ∧
    ((parseMessage now (MessageKind.batch b)).batchChildren.length
      = b.messages.length) ∧
    ((parseMessage now (MessageKind.batch b)).sentAt = some now) ∧
    ((parseMessage now (MessageKind.batch b)).originalTimestamp
      = some (b.original_timestamp.getD now)) ∧
    ((parseMessage now (MessageKind.batch b)).batchChildren[i]?.map
        RbatchMessage.sentAt = b.messages[i]?.map fun _ => some now) ∧
    ((parseMessage now (MessageKind.batch b)).batchChildren[i]?.map
        RbatchMessage.originalTimestamp
      = b.messages[i]?.map fun _ => some (b.original_timestamp.getD now)) := by
  intro now b i
  rcases b with ⟨msgs, c, ints, ot⟩
  cases ot <;>
  · refine ⟨?_, rfl, rfl, ?_, ?_, ?_, rfl, rfl, ?_, ?_⟩
    · simp [ruddermessageFrom, Rmessage.batchChildren]
    · simp only [ruddermessageFrom, Rmessage.batchChildren,
        List.getElem?_map, Option.map_map]
      cases hmi : msgs[i]?
      · rfl
      · rename_i x
        cases x <;> rfl
    · simp only [ruddermessageFrom, Rmessage.batchChildren,
        List.getElem?_map, Option.map_map]
      cases hmi : msgs[i]?
      · rfl
      · rename_i x
        cases x <;> rfl
    · simp [parseMessage, parse_batch, Rmessage.batchChildren]
    · simp only [parseMessage, parse_batch, Rmessage.batchChildren,
        List.getElem?_map, Option.map_map]
      cases hmi : msgs[i]?
      · rfl
      · rename_i x
        cases x <;> rfl
    · simp only [parseMessage, parse_batch, Rmessage.batchChildren,
        List.getElem?_map, Option.map_map]
      cases hmi : msgs[i]?
      · rfl
      · rename_i x
        cases x <;> rfl

/-- Claim C5: for every event of the five identity-checked kinds with
both user_id and anonymous_id absent, send returns InvalidRequest from
its first match, before any normalization, and queues no request. -/
theorem C5_theorem :
    ∀ (now : Time),
    (∀ m : Identify, m.user_id = none → m.anonymous_id = none →
      send now (MessageKind.identify m) = Except.error AnalyticsError.invalidRequest ∧
      sendRequests now (MessageKind.identify m) = []) ∧
    (∀ m : Track, m.user_id = none → m.anonymous_id = none →
      send now (MessageKind.track m) = Except.error AnalyticsError.invalidRequest ∧
      sendRequests now (MessageKind.track m) = []) ∧
    (∀ m : Page, m.user_id = none → m.anonymous_id = none →
      send now (MessageKind.page m) = Except.error AnalyticsError.invalidRequest ∧
      sendRequests now (MessageKind.page m) = []) ∧
    (∀ m : Screen, m.user_id = none → m.anonymous_id = none →
      send now (MessageKind.screen m) = Except.error AnalyticsError.invalidRequest ∧
      sendRequests now (MessageKind.screen m) = []) ∧
    (∀ m : Group, m.user_id = none → m.anonymous_id = none →
      send now (MessageKind.group m) = Except.error AnalyticsError.invalidRequest ∧
      sendRequests now (MessageKind.group m) = []) := by
  intro now
  refine ⟨?_, ?_, ?_, ?_, ?_⟩ <;>
  · intro m hu ha
    constructor <;> simp [send, sendPath, sendRequests, hu, ha]

/-- Witness for claim C5: a concrete Identify with both identity
fields absent is rejected without queueing a request. -/
theorem C5_witness :
    send 0 (MessageKind.identify
      { user_id := none, anonymous_id := none, traits := none,
        original_timestamp := none, context := none, integrations := none })
      = Except.error AnalyticsError.invalidRequest ∧
    sendRequests 0 (MessageKind.identify
      { user_id := none, anonymous_id := none, traits := none,
        original_timestamp := none, context := none, integrations := none }) = [] :=
  (C5_theorem 0).1
    { user_id := none, anonymous_id := none, traits := none,
      original_timestamp := none, context := none, integrations := none }
    rfl rfl

/-- The channel the amended claim C8 predicts per event kind: the
constant server channel on every non-batch canonical event, no channel
field at all on the batch wrapper. -/
def wrapperChannel : MessageKind → Option String
  | .batch _ => none
  | _ => some "server"

/-- Claim C8, counterexample. The claim states every canonical output,
the batch wrapper included, carries the constant channel string. The
canonical batch wrapper struct is constructed without any channel field
in both normalizers, so a batch event's canonical output has no channel
at all. -/
theorem C8_counterexample :
    ((ruddermessageFrom 0 (MessageKind.batch
      { messages := [], context := none, integrations := none,
        original_timestamp := none })).channelOpt = none) ∧
    ((parseMessage 0 (MessageKind.batch
      { messages := [], context := none, integrations := none,
        original_timestamp := none })).channelOpt = none) ∧
    ((none : Option String) ≠ some "server") ∧
    ((ruddermessageFrom 0 (MessageKind.batch
      { messages := [], context := none, integrations := none,
        original_timestamp := none })).msgType = "batch") := by
  refine ⟨rfl, rfl, ?_, rfl⟩
  intro h
  exact Option.noConfusion h

/-- Claim C8, amended: in both normalizers every canonical event
carries the type discriminator equal to the lowercase kind name
("batch" for the wrapper), every non-batch canonical event and every
flattened batch child carries the constant channel "server", and the
batch wrapper carries no channel field. -/
theorem C8_theorem :
    ∀ (now : Time) (m : MessageKind) (i : Nat),
    ((ruddermessageFrom now m).msgType = m.kindName) ∧
    ((parseMessage now m).msgType = m.kindName) ∧
    ((ruddermessageFrom now m).channelOpt = wrapperChannel m) ∧
    ((parseMessage now m).channelOpt = wrapperChannel m) ∧
    ((ruddermessageFrom now m).batchChildren[i]?.map RbatchMessage.msgType
      = m.children[i]?.map BatchMessage.kindName) ∧
    ((ruddermessageFrom now m).batchChildren[i]?.map RbatchMessage.channel
      = m.children[i]?.map fun _ => "server") ∧
    ((parseMessage now m).batchChildren[i]?.map RbatchMessage.msgType
      = m.children[i]?.map BatchMessage.kindName) ∧
    ((parseMessage now m).batchChildren[i]?.map RbatchMessage.channel
      = m.children[i]?.map fun _ => "server") := by
  intro now m i
  rcases m with m' | m' | m' | m' | m' | m' | ⟨msgs, c, ints, ot⟩
  · exact ⟨rfl, rfl, rfl, rfl, rfl, rfl, rfl, rfl⟩
  · exact ⟨rfl, rfl, rfl, rfl, rfl, rfl, rfl, rfl⟩
  · exact ⟨rfl, rfl, rfl, rfl, rfl, rfl, rfl, rfl⟩
  · exact ⟨rfl, rfl, rfl, rfl, rfl, rfl, rfl, rfl⟩
  · exact ⟨rfl, rfl, rfl, rfl, rfl, rfl, rfl, rfl⟩
  · exact ⟨rfl, rfl, rfl, rfl, rfl, rfl, rfl, rfl⟩
  · refine ⟨rfl, rfl, rfl, rfl, ?_, ?_, ?_, ?_⟩ <;>
    · simp only [ruddermessageFrom, parseMessage, parse_batch,
        Rmessage.batchChildren, MessageKind.children,
        List.getElem?_map, Option.map_map]
      cases hmi : msgs[i]?
      · rfl
      · rename_i x
        cases x <;> rfl

/-- Claim C9: the two normalization implementations agree. For every
message and fixed clock reading, the canonical payload produced by the
utils parse functions equals, field for field, the one produced by the
From conversion; the only type-level difference is that the utils
family stores both timestamps wrapped in Some, so equality is stated
through the field-preserving injection someT. -/
theorem C9_theorem :
    ∀ (now : Time) (m : MessageKind),
    parseMessage now m = Rmessage.someT (ruddermessageFrom now m) := by
  intro now m
  rcases m with ⟨_, _, _, ot, _, _⟩ | ⟨_, _, _, _, ot, _, _⟩ |
    ⟨_, _, _, _, ot, _, _⟩ | ⟨_, _, _, _, ot, _, _⟩ |
    ⟨_, _, _, _, ot, _, _⟩ | ⟨_, _, _, ot, _, _⟩ | ⟨msgs, c, ints, ot⟩
  · cases ot <;> rfl
  · cases ot <;> rfl
  · cases ot <;> rfl
  · cases ot <;> rfl
  · cases ot <;> rfl
  · cases ot <;> rfl
  · cases ot <;>
    · simp only [parseMessage, parse_batch, ruddermessageFrom,
        Rmessage.someT, Rmessage.batch.injEq, Rbatch.mk.injEq,
        List.map_map, getTimings, Batch.get_original_timestamp,
        Option.getD_none, Option.getD_some, Option.isNone_none,
        Option.isNone_some, Bool.false_eq_true, if_true, if_false,
        and_true, true_and]
      induction msgs with
      | nil => rfl
      | cons x xs ih =>
        simp only [List.map_cons, List.cons.injEq]
        exact ⟨by cases x <;> rfl, ih⟩
theorem C10_theorem :
    ∀ (now : Time) (m : MessageKind),
    send now m ≠ Except.error AnalyticsError.messageTooLarge := by
  intro now m h
  unfold send at h
  cases hp : sendPath m with
  | ok p =>
    rw [hp] at h
    exact Except.noConfusion h
  | error e =>
    rw [hp] at h
    injection h with h2
    have he := sendPath_error_eq m e hp
    rw [he] at h2
    exact AnalyticsError.noConfusion h2

end Rudder
